import Mathlib

/-!
Verification development for the PLANTAS farmer-registry service
(`cci_back`).  The Python source is shallowly embedded: Python strings
become `String` (lists of unicode code points), Python `float` becomes
`ℚ` (the code only compares these values, never does float arithmetic
whose rounding could be observed), Python `date` becomes a `y/m/d`
triple, dynamically-typed crop/age cells become an explicit sum
`PyVal`, exceptions become `Except`/`Option` results, and the
database-backed repositories become pure state-passing functions over
lists of rows.
-/

/-! ## Python string primitives used by the source -/

/-- The ASCII whitespace characters removed by Python `str.strip()`.
(The source is only ever exercised with ASCII whitespace; the full
Python definition also strips some exotic unicode spaces.) -/
def isPySpace (c : Char) : Bool :=
  c = ' ' || c = '\t' || c = '\n' || c = '\x0d' || c = '\x0b' || c = '\x0c'

/-- `str.strip()` on the underlying character list. -/
def pyStripList (l : List Char) : List Char :=
  ((l.dropWhile isPySpace).reverse.dropWhile isPySpace).reverse

/-- Python `s.strip()`. -/
def pyStrip (s : String) : String :=
  ⟨pyStripList s.data⟩

/-- Python `s.replace(c, "")` for a single-character pattern `c`:
every occurrence of the character is removed. -/
def pyRemoveChar (c : Char) (s : String) : String :=
  ⟨s.data.filter (fun d => d ≠ c)⟩

/-- Model of Python `str.isdigit` on one character.  Python accepts
every character of unicode numeric type Digit or Decimal; the model
covers the ranges the development exercises (ASCII digits, the
superscript digits ¹ ² ³, and the Arabic-Indic digits ٠-٩), and is
`false` elsewhere.  Python agrees with the model on every character
for which the model returns `true`, and on all ASCII. -/
def pyIsDigitChar (c : Char) : Bool :=
  (48 ≤ c.toNat && c.toNat ≤ 57) ||
  c.toNat = 0xb9 || c.toNat = 0xb2 || c.toNat = 0xb3 ||
  (0x660 ≤ c.toNat && c.toNat ≤ 0x669)

/-- Python `s.isdigit()`: true on nonempty strings of digit characters. -/
def pyIsDigitStr (s : String) : Bool :=
  !s.data.isEmpty && s.data.all pyIsDigitChar

/-- Value of one character under Python `int(...)` conversion, which
accepts decimal digits (ASCII and Arabic-Indic) but rejects the
superscript digits even though `isdigit` accepts them. -/
def pyDigitVal (c : Char) : Option Nat :=
  if 48 ≤ c.toNat ∧ c.toNat ≤ 57 then some (c.toNat - 48)
  else if 0x660 ≤ c.toNat ∧ c.toNat ≤ 0x669 then some (c.toNat - 0x660)
  else none

/-- Python `int(s)` for an unsigned digit string: `none` models the
`ValueError` raised on the empty string or on digit-like characters
outside the decimal ranges. -/
def pyIntOfString (s : String) : Option Nat :=
  s.data.foldl
    (fun acc c =>
      match acc, pyDigitVal c with
      | some a, some d => some (a * 10 + d)
      | _, _ => none)
    (if s.data.isEmpty then none else some 0)

/-- Model of Python `str.upper` on one character: ASCII letters are
uppercased and the accented í (the only non-ASCII letter appearing in
the crop tokens of the source) maps to Í; other characters are kept.
Python agrees on every character the development exercises. -/
def pyUpperChar (c : Char) : Char :=
  if c = 'í' then 'Í' else c.toUpper

/-- Python `s.upper()`. -/
def pyUpper (s : String) : String :=
  ⟨s.data.map pyUpperChar⟩

/-! ## Dynamic values, dates, and domain errors -/

/-- A dynamically-typed Python cell as it reaches the entity: either a
string or a number (`int`/`float`, embedded as `ℚ`). -/
inductive PyVal where
  | str (s : String)
  | num (q : ℚ)
deriving DecidableEq, Repr

/-- A Python `datetime.date`. -/
structure PyDate where
  year : Nat
  month : Nat
  day : Nat
deriving DecidableEq, Repr

/-- The domain exceptions of `domain_exceptions.py` that the embedded
slice can raise: `InvalidDNIException`, `AgricultorNotFoundException`
and `AgricultorValidationException` (field, offending value, reason). -/
inductive DomainError where
  | invalidDNI (dni : String) (reason : String)
  | notFound (dni : String)
  | validation (field : String) (value : Option PyVal) (reason : String)
deriving DecidableEq, Repr

/-! ## The identifier normalizer of the domain service

`AgricultorService._validar_y_limpiar_dni`: strip surrounding
whitespace, drop `-` and `.` separators, then require exactly 8
characters, all satisfying Python `isdigit`. -/

def validar_y_limpiar_dni (dni : String) : Except DomainError String :=
  if dni = "" then
    .error (.invalidDNI dni "DNI no puede estar vacío")
  else
    let dni_limpio := pyRemoveChar '.' (pyRemoveChar '-' (pyStrip dni))
    if dni_limpio.data.length ≠ 8 then
      .error (.invalidDNI dni
        ("DNI debe tener 8 dígitos, recibido: " ++ toString dni_limpio.data.length))
    else if !pyIsDigitStr dni_limpio then
      .error (.invalidDNI dni "DNI debe contener solo números")
    else
      .ok dni_limpio

/-! ## The entity `Agricultor` (dataclass of `agricultor.py`)

Field names follow the source; `tamaño_empresa` and `castaña` are
spelled `tamano_empresa` and `castana` because Lean identifiers do not
admit `ñ`.  Crop cells and `edad` are `Option PyVal` because the
running system feeds them strings or numbers. -/

structure Agricultor where
  dni : String
  fecha_censo : PyDate
  apellidos : String
  nombres : String
  nombre_completo : String
  sexo : String
  nombre_empresa_organizacion : Option String := none
  pais : Option String := none
  edad : Option PyVal := none
  telefono : Option Int := none
  tamano_empresa : Option String := none
  sector : Option String := none
  esparrago : Option PyVal := none
  granada : Option PyVal := none
  maiz : Option PyVal := none
  palta : Option PyVal := none
  papa : Option PyVal := none
  pecano : Option PyVal := none
  vid : Option PyVal := none
  castana : Option PyVal := none
  dpto : String := ""
  provincia : String := ""
  distrito : String := ""
  centro_poblado : Option String := none
  coordenadas : Option String := none
  ubicacion_maps : Option String := none
  senasa : Option String := none
  cod_lugar_prod : Option String := none
  area_solicitada : Option ℚ := none
  rendimiento_certificado : Option ℚ := none
  predio : Option String := none
  direccion : Option String := none
  departamento_senasa : Option String := none
  provincia_senasa : Option String := none
  distrito_senasa : Option String := none
  sector_senasa : Option String := none
  subsector_senasa : Option String := none
  sispa : Option String := none
  codigo_autogene_sispa : Option String := none
  regimen_tenencia_sispa : Option String := none
  area_total_declarada : Option ℚ := none
  fecha_actualizacion_sispa : Option PyDate := none
  programa_plantas : Option String := none
  inia_programa_peru_2m : Option String := none
  senasa_escuela_campo : Option String := none
  toma : Option String := none
  edad_cultivo : Option String := none
  total_ha_sembrada : Option ℚ := none
  productividad_x_ha : Option ℚ := none
  tipo_riego : Option String := none
  nivel_alcance_venta : Option String := none
  jornales_por_ha : Option ℚ := none
  practica_economica_sost : Option String := none
  porcentaje_prac_economica_sost : Option String := none
deriving DecidableEq, Repr

namespace Agricultor

/-- `Agricultor._validate_dni`: reject empty or blank, strip, require
length 8 and `isdigit`; on success the entity keeps the stripped
identifier.  Errors are the `ValueError` messages of the source. -/
def validate_dni (dni : String) : Except String String :=
  if dni = "" ∨ (pyStrip dni).data.length = 0 then
    .error "DNI no puede estar vacío"
  else
    let dni_clean := pyStrip dni
    if dni_clean.data.length ≠ 8 then
      .error "DNI debe tener exactamente 8 dígitos"
    else if !pyIsDigitStr dni_clean then
      .error "DNI debe contener solo números"
    else
      .ok dni_clean

/-- `Agricultor._validate_age`: a digit-only string is converted with
`int` and must land in `[0, 120]`; any other nonempty (or even blank)
string is accepted as descriptive text; a number must land in
`[0, 120]`. -/
def validate_age (edad : Option PyVal) : Except String Unit :=
  match edad with
  | none => .ok ()
  | some (.str s) =>
    if pyIsDigitStr (pyStrip s) then
      match pyIntOfString (pyStrip s) with
      | some n =>
        if n > 120 then .error "Edad debe estar entre 0 y 120 años" else .ok ()
      | none => .error "invalid literal for int() with base 10"
    else
      .ok ()
  | some (.num q) =>
    if q < 0 ∨ q > 120 then .error "Edad debe estar entre 0 y 120 años" else .ok ()

/-- `Agricultor.__post_init__`: validate the identifier, validate the
age, and store the stripped identifier back into the entity.  This is
the construction path of the dataclass. -/
def post_init (a : Agricultor) : Except String Agricultor :=
  match validate_dni a.dni with
  | .error e => .error e
  | .ok dni_clean =>
    match validate_age a.edad with
    | .error e => .error e
    | .ok _ => .ok { a with dni := dni_clean }

/-- The boolean test one crop cell undergoes in
`Agricultor.cultivos_activos`: a string that is nonempty after
stripping and whose uppercase form is `SÍ`, `SI` or `S`, or a number
strictly greater than zero. -/
def es_cultivo_activo (v : Option PyVal) : Bool :=
  match v with
  | some (.str s) =>
    pyStrip s ≠ "" && (pyUpper s = "SÍ" || pyUpper s = "SI" || pyUpper s = "S")
  | some (.num q) => decide (0 < q)
  | none => false

/-- `Agricultor.cultivos_activos`: the eight crop fields in source
order, filtered to the active ones, keyed by field name. -/
def cultivos_activos (a : Agricultor) : List (String × PyVal) :=
  ([("esparrago", a.esparrago), ("granada", a.granada), ("maiz", a.maiz),
    ("palta", a.palta), ("papa", a.papa), ("pecano", a.pecano),
    ("vid", a.vid), ("castana", a.castana)]).filterMap
    (fun p =>
      match p.2 with
      | some v => if es_cultivo_activo (some v) then some (p.1, v) else none
      | none => none)

end Agricultor

/-! ## The record validator of the domain service

`AgricultorService.validar_datos_agricultor`: four rules checked in
source order, raising `AgricultorValidationException` (modelled as
`some error`) at the first violation. -/

def validar_datos_agricultor (a : Agricultor) : Option DomainError :=
  if a.nombre_completo = "" ∨ pyStrip a.nombre_completo = "" then
    some (.validation "nombre_completo" (some (.str a.nombre_completo))
      "Nombre completo es obligatorio")
  else if a.dpto = "" ∨ pyStrip a.dpto = "" then
    some (.validation "dpto" (some (.str a.dpto)) "Departamento es obligatorio")
  else if a.total_ha_sembrada.any (fun q => decide (q < 0)) then
    some (.validation "total_ha_sembrada" (a.total_ha_sembrada.map .num)
      "Hectáreas sembradas no puede ser negativo")
  else if a.productividad_x_ha.any (fun q => decide (q < 0)) then
    some (.validation "productividad_x_ha" (a.productividad_x_ha.map .num)
      "Productividad no puede ser negativa")
  else
    none

/-- Decidable equality of `Except` results, used to evaluate the
embedded operations on concrete inputs. -/
instance {ε α : Type} [DecidableEq ε] [DecidableEq α] : DecidableEq (Except ε α) := fun a b =>
  match a, b with
  | .ok x, .ok y => if h : x = y then isTrue (by rw [h]) else isFalse (by simp [h])
  | .error x, .error y => if h : x = y then isTrue (by rw [h]) else isFalse (by simp [h])
  | .ok _, .error _ => isFalse (by simp)
  | .error _, .ok _ => isFalse (by simp)

/-! ## The repository port seen by the domain layer

The use cases consume the abstract `AgricultorRepository`; its state is
embedded as the list of stored entities, looked up by identifier. -/

/-- The abstract repository state: the stored records. -/
abbrev Repo : Type := List Agricultor

/-- `find_by_dni` of the port: the stored record with the given
identifier, if any. -/
def find_by_dni (repo : Repo) (dni : String) : Option Agricultor :=
  List.find? (fun a => a.dni = dni) repo

/-- `exists_by_dni` of the port. -/
def exists_by_dni (repo : Repo) (dni : String) : Bool :=
  (find_by_dni repo dni).isSome

/-- `save` of the port: insert the record (the caller has checked
non-duplication). -/
def repo_save (repo : Repo) (a : Agricultor) : Agricultor × Repo :=
  (a, List.append repo [a])

/-- `update` of the port: replace the row matched by the record's
identifier; both SQL adapters raise not-found when no row matches. -/
def repo_update (repo : Repo) (a : Agricultor) : Except DomainError (Agricultor × Repo) :=
  if exists_by_dni repo a.dni then
    .ok (a, repo.map (fun x => if x.dni = a.dni then a else x))
  else
    .error (.notFound a.dni)

/-- `AgricultorService.verificar_existencia_agricultor`: normalize the
identifier, answering `False` instead of propagating
`InvalidDNIException`, and ask the repository otherwise. -/
def verificar_existencia_agricultor (repo : Repo) (dni : String) : Except DomainError Bool :=
  match validar_y_limpiar_dni dni with
  | .ok dni_limpio => .ok (exists_by_dni repo dni_limpio)
  | .error (.invalidDNI _ _) => .ok false
  | .error e => .error e

/-! ## Use cases -/

/-- `CrearAgricultorUseCase.execute`: validate, reject a duplicate
identifier with `AgricultorValidationException` on field `dni`, then
save.  Returns the result together with the repository state after the
call. -/
def crear_execute (repo : Repo) (agricultor : Agricultor) :
    Except DomainError Agricultor × Repo :=
  match validar_datos_agricultor agricultor with
  | some e => (.error e, repo)
  | none =>
    if exists_by_dni repo agricultor.dni then
      (.error (.validation "dni" (some (.str agricultor.dni))
        "Ya existe un agricultor con este DNI"), repo)
    else
      let r := repo_save repo agricultor
      (.ok r.1, r.2)

/-- `ActualizarAgricultorUseCase.execute`: normalize the path
identifier, require existence, force the entity's identifier to the
normalized path identifier, validate, and update.  Returns the result
together with the repository state after the call. -/
def actualizar_execute (repo : Repo) (dni : String) (agricultor_actualizado : Agricultor) :
    Except DomainError Agricultor × Repo :=
  match validar_y_limpiar_dni dni with
  | .error e => (.error e, repo)
  | .ok dni_limpio =>
    match find_by_dni repo dni_limpio with
    | none => (.error (.notFound dni_limpio), repo)
    | some _ =>
      let actualizado :=
        if agricultor_actualizado.dni ≠ dni_limpio then
          { agricultor_actualizado with dni := dni_limpio }
        else agricultor_actualizado
      match validar_datos_agricultor actualizado with
      | some e => (.error e, repo)
      | none =>
        match repo_update repo actualizado with
        | .ok r => (.ok r.1, r.2)
        | .error _ =>
          (.error (.validation "general" none "Error actualizando agricultor"), repo)

/-! ## Lexicographic character-list comparison

SQL `ORDER BY` on text columns is embedded as code-point lexicographic
order on the underlying character lists. -/

/-- Lexicographic less-or-equal on character lists by code point. -/
def charLeB : List Char → List Char → Bool
  | [], _ => true
  | _ :: _, [] => false
  | a :: as, b :: bs =>
    if a.toNat < b.toNat then true
    else if b.toNat < a.toNat then false
    else charLeB as bs

theorem charLeB_total (a b : List Char) : charLeB a b = true ∨ charLeB b a = true := by
  induction a generalizing b with
  | nil => left; rfl
  | cons x xs ih =>
    cases b with
    | nil => right; rfl
    | cons y ys =>
      by_cases h1 : x.toNat < y.toNat
      · left; simp [charLeB, h1]
      · by_cases h2 : y.toNat < x.toNat
        · right; simp [charLeB, h2]
        · rcases ih ys with h | h
          · left; simpa [charLeB, h1, h2] using h
          · right; simpa [charLeB, h1, h2] using h

theorem charLeB_trans {a b c : List Char} (hab : charLeB a b = true)
    (hbc : charLeB b c = true) : charLeB a c = true := by
  induction a generalizing b c with
  | nil => rfl
  | cons x xs ih =>
    cases b with
    | nil => simp [charLeB] at hab
    | cons y ys =>
      cases c with
      | nil => simp [charLeB] at hbc
      | cons z zs =>
        by_cases hxy : x.toNat < y.toNat
        · by_cases hyz : y.toNat < z.toNat
          · have hxz : x.toNat < z.toNat := Nat.lt_trans hxy hyz
            simp [charLeB, hxz]
          · by_cases hzy : z.toNat < y.toNat
            · simp [charLeB, hyz, hzy] at hbc
            · have hxz : x.toNat < z.toNat := by omega
              simp [charLeB, hxz]
        · by_cases hyx : y.toNat < x.toNat
          · simp [charLeB, hxy, hyx] at hab
          · simp only [charLeB, if_neg hxy, if_neg hyx] at hab
            by_cases hyz : y.toNat < z.toNat
            · have hxz : x.toNat < z.toNat := by omega
              simp [charLeB, hxz]
            · by_cases hzy : z.toNat < y.toNat
              · simp [charLeB, hyz, hzy] at hbc
              · simp only [charLeB, if_neg hyz, if_neg hzy] at hbc
                have hxz : ¬ x.toNat < z.toNat := by omega
                have hzx : ¬ z.toNat < x.toNat := by omega
                simp only [charLeB, if_neg hxz, if_neg hzx]
                exact ih hab hbc

theorem charLeB_antisymm {a b : List Char} (hab : charLeB a b = true)
    (hba : charLeB b a = true) : a = b := by
  induction a generalizing b with
  | nil =>
    cases b with
    | nil => rfl
    | cons y ys => simp [charLeB] at hba
  | cons x xs ih =>
    cases b with
    | nil => simp [charLeB] at hab
    | cons y ys =>
      by_cases hxy : x.toNat < y.toNat
      · have hyx : ¬ y.toNat < x.toNat := by omega
        simp [charLeB, hyx, hxy] at hba
      · by_cases hyx : y.toNat < x.toNat
        · simp [charLeB, hxy, hyx] at hab
        · simp only [charLeB, if_neg hxy, if_neg hyx] at hab hba
          have hnat : x.toNat = y.toNat := by omega
          have hx : x = y :=
            Char.ext (UInt32.ext (by simpa [Char.toNat, UInt32.toNat] using hnat))
          rw [hx, ih hab hba]

/-- Ascending order on embedded dates (year, month, day). -/
def dateLeB (a b : PyDate) : Bool :=
  decide (a.year < b.year) ||
  (decide (a.year = b.year) &&
    (decide (a.month < b.month) ||
      (decide (a.month = b.month) && decide (a.day ≤ b.day))))

theorem dateLeB_total (a b : PyDate) : dateLeB a b = true ∨ dateLeB b a = true := by
  simp only [dateLeB, Bool.or_eq_true, Bool.and_eq_true, decide_eq_true_eq]
  omega

theorem dateLeB_trans {a b c : PyDate} (hab : dateLeB a b = true)
    (hbc : dateLeB b c = true) : dateLeB a c = true := by
  simp only [dateLeB, Bool.or_eq_true, Bool.and_eq_true, decide_eq_true_eq] at hab hbc ⊢
  omega

/-! ## The PostgreSQL adapter (`postgresql_agricultor_repository.py`)

Its `INSERT`/`SELECT` touch exactly 33 of the entity's columns; a row
of the `agricultores` table, as this adapter reads and writes it, is
therefore the following 33-field record. -/

structure PgRow where
  dni : String
  fecha_censo : PyDate
  apellidos : String
  nombres : String
  nombre_completo : String
  sexo : String
  edad : Option PyVal
  esparrago : Option PyVal
  granada : Option PyVal
  maiz : Option PyVal
  palta : Option PyVal
  papa : Option PyVal
  pecano : Option PyVal
  vid : Option PyVal
  dpto : String
  provincia : String
  distrito : String
  centro_poblado : Option String
  senasa : Option String
  sispa : Option String
  codigo_autogene_sispa : Option String
  regimen_tenencia_sispa : Option String
  area_total_declarada : Option ℚ
  fecha_actualizacion_sispa : Option PyDate
  toma : Option String
  edad_cultivo : Option String
  total_ha_sembrada : Option ℚ
  productividad_x_ha : Option ℚ
  tipo_riego : Option String
  nivel_alcance_venta : Option String
  jornales_por_ha : Option ℚ
  practica_economica_sost : Option String
  porcentaje_prac_economica_sost : Option String
deriving DecidableEq, Repr

/-- The 33 column values bound by `PostgreSQLAgricultorRepository.save`
(and, identically, by its `update`). -/
def pg_row_of (a : Agricultor) : PgRow :=
  { dni := a.dni, fecha_censo := a.fecha_censo, apellidos := a.apellidos,
    nombres := a.nombres, nombre_completo := a.nombre_completo, sexo := a.sexo,
    edad := a.edad, esparrago := a.esparrago, granada := a.granada,
    maiz := a.maiz, palta := a.palta, papa := a.papa, pecano := a.pecano,
    vid := a.vid, dpto := a.dpto, provincia := a.provincia,
    distrito := a.distrito, centro_poblado := a.centro_poblado,
    senasa := a.senasa, sispa := a.sispa,
    codigo_autogene_sispa := a.codigo_autogene_sispa,
    regimen_tenencia_sispa := a.regimen_tenencia_sispa,
    area_total_declarada := a.area_total_declarada,
    fecha_actualizacion_sispa := a.fecha_actualizacion_sispa,
    toma := a.toma, edad_cultivo := a.edad_cultivo,
    total_ha_sembrada := a.total_ha_sembrada,
    productividad_x_ha := a.productividad_x_ha, tipo_riego := a.tipo_riego,
    nivel_alcance_venta := a.nivel_alcance_venta,
    jornales_por_ha := a.jornales_por_ha,
    practica_economica_sost := a.practica_economica_sost,
    porcentaje_prac_economica_sost := a.porcentaje_prac_economica_sost }

/-- `PostgreSQLAgricultorRepository._map_to_entity`: the 33 stored
columns are copied back; every other entity field takes its dataclass
default. -/
def pg_map_to_entity (r : PgRow) : Agricultor :=
  { dni := r.dni, fecha_censo := r.fecha_censo, apellidos := r.apellidos,
    nombres := r.nombres, nombre_completo := r.nombre_completo, sexo := r.sexo,
    edad := r.edad, esparrago := r.esparrago, granada := r.granada,
    maiz := r.maiz, palta := r.palta, papa := r.papa, pecano := r.pecano,
    vid := r.vid, dpto := r.dpto, provincia := r.provincia,
    distrito := r.distrito, centro_poblado := r.centro_poblado,
    senasa := r.senasa, sispa := r.sispa,
    codigo_autogene_sispa := r.codigo_autogene_sispa,
    regimen_tenencia_sispa := r.regimen_tenencia_sispa,
    area_total_declarada := r.area_total_declarada,
    fecha_actualizacion_sispa := r.fecha_actualizacion_sispa,
    toma := r.toma, edad_cultivo := r.edad_cultivo,
    total_ha_sembrada := r.total_ha_sembrada,
    productividad_x_ha := r.productividad_x_ha, tipo_riego := r.tipo_riego,
    nivel_alcance_venta := r.nivel_alcance_venta,
    jornales_por_ha := r.jornales_por_ha,
    practica_economica_sost := r.practica_economica_sost,
    porcentaje_prac_economica_sost := r.porcentaje_prac_economica_sost }

/-- `PostgreSQLAgricultorRepository.save`: `INSERT` of the 33 columns. -/
def pg_save (tbl : List PgRow) (a : Agricultor) : List PgRow :=
  List.append tbl [pg_row_of a]

/-- `PostgreSQLAgricultorRepository.find_by_dni`: `SELECT * WHERE dni`
followed by `_map_to_entity`. -/
def pg_find_by_dni (tbl : List PgRow) (dni : String) : Option Agricultor :=
  (List.find? (fun r => r.dni = dni) tbl).map pg_map_to_entity

/-- The `ORDER BY apellidos, nombres` key of the PostgreSQL `find_all`. -/
def pgOrder (a b : PgRow) : Prop :=
  (if a.apellidos.data = b.apellidos.data then charLeB a.nombres.data b.nombres.data
   else charLeB a.apellidos.data b.apellidos.data) = true

instance : DecidableRel pgOrder := fun a b =>
  inferInstanceAs (Decidable
    ((if a.apellidos.data = b.apellidos.data then charLeB a.nombres.data b.nombres.data
      else charLeB a.apellidos.data b.apellidos.data) = true))

instance : IsTotal PgRow pgOrder where
  total a b := by
    unfold pgOrder
    by_cases h : a.apellidos.data = b.apellidos.data
    · rcases charLeB_total a.nombres.data b.nombres.data with hn | hn
      · left; simp [h, hn]
      · right; simp [h.symm, hn]
    · have h2 : ¬ b.apellidos.data = a.apellidos.data := fun hh => h hh.symm
      rcases charLeB_total a.apellidos.data b.apellidos.data with ha | ha
      · left; simp [h, ha]
      · right; simp [h2, ha]

instance : IsTrans PgRow pgOrder where
  trans a b c hab hbc := by
    unfold pgOrder at hab hbc ⊢
    by_cases h1 : a.apellidos.data = b.apellidos.data <;>
      by_cases h2 : b.apellidos.data = c.apellidos.data
    · simp only [if_pos h1] at hab
      simp only [if_pos h2] at hbc
      simp only [if_pos (h1.trans h2)]
      exact charLeB_trans hab hbc
    · simp only [if_neg (fun hh : a.apellidos.data = c.apellidos.data => h2 (h1 ▸ hh))]
      simp only [if_neg h2] at hbc
      rw [h1]; exact hbc
    · simp only [if_neg (fun hh : a.apellidos.data = c.apellidos.data => h1 (hh.trans h2.symm))]
      simp only [if_neg h1] at hab
      rw [← h2]; exact hab
    · simp only [if_neg h1] at hab
      simp only [if_neg h2] at hbc
      by_cases h3 : a.apellidos.data = c.apellidos.data
      · have hba : charLeB b.apellidos.data a.apellidos.data = true := by
          rw [h3]; exact hbc
        exact absurd (charLeB_antisymm hab hba) h1
      · simp only [if_neg h3]
        exact charLeB_trans hab hbc

/-- `PostgreSQLAgricultorRepository.find_all`: the table sorted by
`apellidos, nombres`, then `OFFSET`, then `LIMIT`, mapped to entities. -/
def pg_find_all (tbl : List PgRow) (limit offset : Nat) : List Agricultor :=
  ((((List.insertionSort pgOrder tbl).drop offset).take limit).map pg_map_to_entity)

/-! ## The MySQL adapter (`mysql_agricultor_repository.py`)

Its `INSERT`/`SELECT` name all 54 entity columns; a row of the table as
this adapter reads and writes it carries every entity field. -/

structure MyRow where
  dni : String
  fecha_censo : PyDate
  apellidos : String
  nombres : String
  nombre_completo : String
  nombre_empresa_organizacion : Option String
  pais : Option String
  sexo : String
  edad : Option PyVal
  telefono : Option Int
  tamano_empresa : Option String
  sector : Option String
  esparrago : Option PyVal
  granada : Option PyVal
  maiz : Option PyVal
  palta : Option PyVal
  papa : Option PyVal
  pecano : Option PyVal
  vid : Option PyVal
  castana : Option PyVal
  dpto : String
  provincia : String
  distrito : String
  centro_poblado : Option String
  coordenadas : Option String
  ubicacion_maps : Option String
  senasa : Option String
  cod_lugar_prod : Option String
  area_solicitada : Option ℚ
  rendimiento_certificado : Option ℚ
  predio : Option String
  direccion : Option String
  departamento_senasa : Option String
  provincia_senasa : Option String
  distrito_senasa : Option String
  sector_senasa : Option String
  subsector_senasa : Option String
  sispa : Option String
  codigo_autogene_sispa : Option String
  regimen_tenencia_sispa : Option String
  area_total_declarada : Option ℚ
  fecha_actualizacion_sispa : Option PyDate
  programa_plantas : Option String
  inia_programa_peru_2m : Option String
  senasa_escuela_campo : Option String
  toma : Option String
  edad_cultivo : Option String
  total_ha_sembrada : Option ℚ
  productividad_x_ha : Option ℚ
  tipo_riego : Option String
  nivel_alcance_venta : Option String
  jornales_por_ha : Option ℚ
  practica_economica_sost : Option String
  porcentaje_prac_economica_sost : Option String
deriving DecidableEq, Repr

/-- The column/value binding of `MySQLAgricultorRepository.create`
(and, identically, of its `update`). -/
def my_row_of (a : Agricultor) : MyRow :=
  { dni := a.dni, fecha_censo := a.fecha_censo, apellidos := a.apellidos,
    nombres := a.nombres, nombre_completo := a.nombre_completo,
    nombre_empresa_organizacion := a.nombre_empresa_organizacion,
    pais := a.pais, sexo := a.sexo, edad := a.edad, telefono := a.telefono,
    tamano_empresa := a.tamano_empresa, sector := a.sector,
    esparrago := a.esparrago, granada := a.granada, maiz := a.maiz,
    palta := a.palta, papa := a.papa, pecano := a.pecano, vid := a.vid,
    castana := a.castana, dpto := a.dpto, provincia := a.provincia,
    distrito := a.distrito, centro_poblado := a.centro_poblado,
    coordenadas := a.coordenadas, ubicacion_maps := a.ubicacion_maps,
    senasa := a.senasa, cod_lugar_prod := a.cod_lugar_prod,
    area_solicitada := a.area_solicitada,
    rendimiento_certificado := a.rendimiento_certificado,
    predio := a.predio, direccion := a.direccion,
    departamento_senasa := a.departamento_senasa,
    provincia_senasa := a.provincia_senasa,
    distrito_senasa := a.distrito_senasa,
    sector_senasa := a.sector_senasa,
    subsector_senasa := a.subsector_senasa, sispa := a.sispa,
    codigo_autogene_sispa := a.codigo_autogene_sispa,
    regimen_tenencia_sispa := a.regimen_tenencia_sispa,
    area_total_declarada := a.area_total_declarada,
    fecha_actualizacion_sispa := a.fecha_actualizacion_sispa,
    programa_plantas := a.programa_plantas,
    inia_programa_peru_2m := a.inia_programa_peru_2m,
    senasa_escuela_campo := a.senasa_escuela_campo, toma := a.toma,
    edad_cultivo := a.edad_cultivo,
    total_ha_sembrada := a.total_ha_sembrada,
    productividad_x_ha := a.productividad_x_ha, tipo_riego := a.tipo_riego,
    nivel_alcance_venta := a.nivel_alcance_venta,
    jornales_por_ha := a.jornales_por_ha,
    practica_economica_sost := a.practica_economica_sost,
    porcentaje_prac_economica_sost := a.porcentaje_prac_economica_sost }

/-- `MySQLAgricultorRepository._map_to_entity`: every column is copied
back into the entity. -/
def my_map_to_entity (r : MyRow) : Agricultor :=
  { dni := r.dni, fecha_censo := r.fecha_censo, apellidos := r.apellidos,
    nombres := r.nombres, nombre_completo := r.nombre_completo,
    nombre_empresa_organizacion := r.nombre_empresa_organizacion,
    pais := r.pais, sexo := r.sexo, edad := r.edad, telefono := r.telefono,
    tamano_empresa := r.tamano_empresa, sector := r.sector,
    esparrago := r.esparrago, granada := r.granada, maiz := r.maiz,
    palta := r.palta, papa := r.papa, pecano := r.pecano, vid := r.vid,
    castana := r.castana, dpto := r.dpto, provincia := r.provincia,
    distrito := r.distrito, centro_poblado := r.centro_poblado,
    coordenadas := r.coordenadas, ubicacion_maps := r.ubicacion_maps,
    senasa := r.senasa, cod_lugar_prod := r.cod_lugar_prod,
    area_solicitada := r.area_solicitada,
    rendimiento_certificado := r.rendimiento_certificado,
    predio := r.predio, direccion := r.direccion,
    departamento_senasa := r.departamento_senasa,
    provincia_senasa := r.provincia_senasa,
    distrito_senasa := r.distrito_senasa,
    sector_senasa := r.sector_senasa,
    subsector_senasa := r.subsector_senasa, sispa := r.sispa,
    codigo_autogene_sispa := r.codigo_autogene_sispa,
    regimen_tenencia_sispa := r.regimen_tenencia_sispa,
    area_total_declarada := r.area_total_declarada,
    fecha_actualizacion_sispa := r.fecha_actualizacion_sispa,
    programa_plantas := r.programa_plantas,
    inia_programa_peru_2m := r.inia_programa_peru_2m,
    senasa_escuela_campo := r.senasa_escuela_campo, toma := r.toma,
    edad_cultivo := r.edad_cultivo,
    total_ha_sembrada := r.total_ha_sembrada,
    productividad_x_ha := r.productividad_x_ha, tipo_riego := r.tipo_riego,
    nivel_alcance_venta := r.nivel_alcance_venta,
    jornales_por_ha := r.jornales_por_ha,
    practica_economica_sost := r.practica_economica_sost,
    porcentaje_prac_economica_sost := r.porcentaje_prac_economica_sost }

/-- `MySQLAgricultorRepository.create`: `INSERT` of the 54 columns. -/
def my_create (tbl : List MyRow) (a : Agricultor) : List MyRow :=
  List.append tbl [my_row_of a]

/-- `MySQLAgricultorRepository.find_by_dni`. -/
def my_find_by_dni (tbl : List MyRow) (dni : String) : Option Agricultor :=
  (List.find? (fun r => r.dni = dni) tbl).map my_map_to_entity

/-- The `ORDER BY fecha_censo DESC` key of the MySQL `find_all`. -/
def myOrder (a b : MyRow) : Prop :=
  dateLeB b.fecha_censo a.fecha_censo = true

instance : DecidableRel myOrder := fun a b =>
  inferInstanceAs (Decidable (dateLeB b.fecha_censo a.fecha_censo = true))

instance : IsTotal MyRow myOrder where
  total a b := by
    unfold myOrder
    rcases dateLeB_total a.fecha_censo b.fecha_censo with h | h
    · right; exact h
    · left; exact h

instance : IsTrans MyRow myOrder where
  trans a b c hab hbc := by
    unfold myOrder at hab hbc ⊢
    exact dateLeB_trans hbc hab

/-- `MySQLAgricultorRepository.find_all`: the table sorted by
`fecha_censo DESC`, then `OFFSET`, then `LIMIT`, mapped to entities. -/
def my_find_all (tbl : List MyRow) (limit offset : Nat) : List Agricultor :=
  ((((List.insertionSort myOrder tbl).drop offset).take limit).map my_map_to_entity)

/-! ## Concrete fixtures used by witnesses and counterexamples -/

/-- The rational 5/2 = 2.5, given in normalized form so that concrete
evaluation reduces. -/
def q_dos_y_medio : ℚ := ⟨5, 2, by decide, by decide⟩

theorem q_dos_y_medio_eq : q_dos_y_medio = 5/2 := by
  rw [q_dos_y_medio, Rat.mk_eq_divInt]
  norm_num [Rat.divInt_eq_div]

def fecha0 : PyDate := ⟨2023, 5, 10⟩

/-- A well-formed record: valid identifier, non-blank name and
department, no numeric fields. -/
def agricultor_base : Agricultor :=
  { dni := "12345678", fecha_censo := fecha0, apellidos := "Pérez",
    nombres := "Juan", nombre_completo := "Juan Pérez", sexo := "M",
    dpto := "Ica", provincia := "Ica", distrito := "Salas" }

/-- An update payload carrying a different identifier in its body. -/
def payload_99 : Agricultor :=
  { agricultor_base with
    dni := "99999999", nombres := "Pedro", nombre_completo := "Pedro Perez" }

/-- The payload after the use case forces the path identifier. -/
def payload_forzado : Agricultor := { payload_99 with dni := "12345678" }

/-- A duplicate-identifier create request that also fails field
validation (blank full name). -/
def agricultor_dup_invalido : Agricultor := { agricultor_base with nombre_completo := "" }

/-- A record whose age is the signed numeric text "-5". -/
def agricultor_edad_neg : Agricultor := { agricultor_base with edad := some (.str "-5") }

/-- A record whose age is the number -5. -/
def agricultor_edad_num_neg : Agricultor := { agricultor_base with edad := some (.num (-5)) }

/-- A record carrying a value in a column the PostgreSQL adapter does
not persist. -/
def agricultor_pais : Agricultor := { agricultor_base with pais := some "Perú" }

/-- The crop example of the specification: esparrago = "SÍ",
maiz = "NO", papa = 2.5. -/
def agricultor_c6 : Agricultor :=
  { agricultor_base with
    esparrago := some (.str "SÍ"), maiz := some (.str "NO"),
    papa := some (.num q_dos_y_medio) }

/-- Two stored records whose census-date order disagrees with their
surname order. -/
def agricultor_alvarez : Agricultor :=
  { agricultor_base with apellidos := "Alvarez", fecha_censo := ⟨2020, 1, 1⟩ }

def agricultor_bravo : Agricultor :=
  { agricultor_base with dni := "87654321", apellidos := "Bravo", fecha_censo := ⟨2021, 1, 1⟩ }

/-! ## Helper lemmas -/

theorem mem_of_mem_pyStripList {c : Char} {l : List Char} (h : c ∈ pyStripList l) :
    c ∈ l := by
  unfold pyStripList at h
  rw [List.mem_reverse] at h
  have h2 := (List.dropWhile_sublist _).mem h
  rw [List.mem_reverse] at h2
  exact (List.dropWhile_sublist _).mem h2

/-- The separator-removal steps of the service normalizer do nothing
on a string without separators. -/
theorem pyRemoveChar_eq_self {c : Char} {s : String} (h : c ∉ s.data) :
    pyRemoveChar c s = s := by
  cases s with
  | mk data =>
    unfold pyRemoveChar
    congr 1
    apply List.filter_eq_self.mpr
    intro a ha
    simp only [ne_eq, decide_eq_true_eq]
    intro hac
    exact h (hac ▸ ha)

theorem pyStrip_empty : pyStrip "" = "" := rfl

/-- The blank test of the validator, folded to its trimmed form. -/
theorem blank_iff (s : String) : (s = "" ∨ pyStrip s = "") ↔ pyStrip s = "" :=
  ⟨fun h => h.elim (fun he => by rw [he]; rfl) id, fun h => Or.inr h⟩

/-- C2 (amended): the service identifier normalizer either signals
`InvalidDNIException` or returns a string of exactly 8 characters all
of which satisfy Python's `isdigit` test — which admits non-ASCII
digit characters, so the returned string need not be 8 ASCII digits. -/
theorem c2_normalizer_shape (s t : String)
    (h : validar_y_limpiar_dni s = .ok t) :
    t.data.length = 8 ∧ t.data.all pyIsDigitChar = true := by
  simp only [validar_y_limpiar_dni] at h
  by_cases h1 : s = ""
  · rw [if_pos h1] at h; cases h
  · rw [if_neg h1] at h
    by_cases h2 : (pyRemoveChar '.' (pyRemoveChar '-' (pyStrip s))).data.length ≠ 8
    · rw [if_pos h2] at h; cases h
    · rw [if_neg h2] at h
      by_cases h3 : (!pyIsDigitStr (pyRemoveChar '.' (pyRemoveChar '-' (pyStrip s)))) = true
      · rw [if_pos h3] at h; cases h
      · rw [if_neg h3] at h
        cases h
        refine ⟨by omega, ?_⟩
        have h4 : pyIsDigitStr (pyRemoveChar '.' (pyRemoveChar '-' (pyStrip s))) = true := by
          revert h3
          cases pyIsDigitStr (pyRemoveChar '.' (pyRemoveChar '-' (pyStrip s))) <;> simp
        simp only [pyIsDigitStr, Bool.and_eq_true] at h4
        exact h4.2

/-- Witness for C2 at the specification's own example input. -/
theorem c2_witness :
    validar_y_limpiar_dni "12-345.678" = .ok "12345678" ∧
    ("12345678".data.length = 8 ∧ "12345678".data.all pyIsDigitChar = true) :=
  ⟨by decide, c2_normalizer_shape "12-345.678" "12345678" (by decide)⟩

/-- Counterexample to C2 as stated: `"1234567²"` (7 ASCII digits and
the superscript two, accepted by Python's `isdigit`) is returned
unchanged, and it is not a string of 8 ASCII digits. -/
theorem c2_counterexample :
    validar_y_limpiar_dni "1234567²" = .ok "1234567²" ∧
    "1234567²".data.all Char.isDigit = false := by decide

/-- C4 (amended): the path normalizer and the entity identifier
validation agree (same acceptance and same normalized string) on
every input containing no hyphen or period; separator-carrying inputs
can disagree, because only the service removes separators. -/
theorem c4_agreement (s : String)
    (h1 : '-' ∉ s.data) (h2 : '.' ∉ s.data) :
    (validar_y_limpiar_dni s).toOption = (Agricultor.validate_dni s).toOption := by
  have hm1 : '-' ∉ (pyStrip s).data := fun hc => h1 (mem_of_mem_pyStripList hc)
  have hm2 : '.' ∉ (pyStrip s).data := fun hc => h2 (mem_of_mem_pyStripList hc)
  have hclean : pyRemoveChar '.' (pyRemoveChar '-' (pyStrip s)) = pyStrip s := by
    rw [pyRemoveChar_eq_self hm1]
    exact pyRemoveChar_eq_self hm2
  simp only [validar_y_limpiar_dni, Agricultor.validate_dni, hclean]
  split_ifs <;> first | rfl | (exfalso; simp_all)

/-- Counterexample to C4 as stated: `"12-345.678"` is accepted and
normalized by the service normalizer but rejected by the entity's
identifier validation, which never removes separators. -/
theorem c4_counterexample :
    validar_y_limpiar_dni "12-345.678" = .ok "12345678" ∧
    Agricultor.validate_dni "12-345.678" = .error "DNI debe tener exactamente 8 dígitos" := by
  decide

/-- Witness for C4 on a separator-free input. -/
theorem c4_witness :
    ('-' ∉ " 12345678 ".data) ∧ ('.' ∉ " 12345678 ".data) ∧
    (validar_y_limpiar_dni " 12345678 ").toOption =
      (Agricultor.validate_dni " 12345678 ").toOption :=
  ⟨by decide, by decide, c4_agreement " 12345678 " (by decide) (by decide)⟩

/-- C9 (amended): with a valid identifier, construction rejects a
numeric age outside `[0, 120]` and rejects digit-only age text parsing
above 120, but any age text that is not purely digits after trimming —
including signed text such as `"-5"` — is accepted as descriptive. -/
theorem c9_age_rules (a : Agricultor) (d : String)
    (hd : Agricultor.validate_dni a.dni = .ok d) :
    (∀ q : ℚ, a.edad = some (.num q) →
      (Agricultor.post_init a = .ok { a with dni := d } ↔ 0 ≤ q ∧ q ≤ 120)) ∧
    (∀ s : String, a.edad = some (.str s) → pyIsDigitStr (pyStrip s) = false →
      Agricultor.post_init a = .ok { a with dni := d }) ∧
    (∀ (s : String) (n : Nat), a.edad = some (.str s) →
      pyIsDigitStr (pyStrip s) = true → pyIntOfString (pyStrip s) = some n →
      (Agricultor.post_init a = .ok { a with dni := d } ↔ n ≤ 120)) := by
  refine ⟨?_, ?_, ?_⟩
  · intro q hq
    simp only [Agricultor.post_init, hd, Agricultor.validate_age, hq]
    by_cases hr : q < 0 ∨ q > 120
    · rw [if_pos hr]
      constructor
      · intro hcon; cases hcon
      · intro hcon; exfalso
        rcases hr with hr | hr
        · linarith [hcon.1]
        · linarith [hcon.2]
    · rw [if_neg hr]
      push_neg at hr
      simp only [Except.ok.injEq]
      constructor
      · intro _; exact ⟨hr.1, hr.2⟩
      · intro _; trivial
  · intro s hs hdig
    simp only [Agricultor.post_init, hd, Agricultor.validate_age, hs, hdig]
    simp
  · intro s n hs hdig hint
    simp only [Agricultor.post_init, hd, Agricultor.validate_age, hs, hdig, hint, if_pos]
    by_cases hn : n > 120
    · rw [if_pos hn]
      constructor
      · intro hcon; cases hcon
      · intro hcon; omega
    · rw [if_neg hn]
      simp only [Except.ok.injEq]
      constructor
      · intro _; omega
      · intro _; trivial

/-- Counterexample to C9 as stated: the record with age text `"-5"`
is accepted by construction, because `"-5"` fails the digit test and
is treated as descriptive text. -/
theorem c9_counterexample :
    agricultor_edad_neg.edad = some (.str "-5") ∧
    Agricultor.post_init agricultor_edad_neg = .ok agricultor_edad_neg := by decide

/-- Witness for C9 at the numeric age -5, which is rejected. -/
theorem c9_witness :
    (Agricultor.post_init agricultor_edad_num_neg =
        .ok { agricultor_edad_num_neg with dni := "12345678" } ↔
      (0 ≤ (-5 : ℚ) ∧ (-5 : ℚ) ≤ 120)) :=
  (c9_age_rules agricultor_edad_num_neg "12345678" (by decide)).1 (-5) rfl

theorem pyUpperChar_space {c : Char} (h : isPySpace c = true) : pyUpperChar c = c := by
  simp only [isPySpace, Bool.or_eq_true, decide_eq_true_eq] at h
  rcases h with ((((h | h) | h) | h) | h) | h <;> rw [h] <;> decide

theorem any_dropWhile_isPySpace (l : List Char)
    (h : l.any (fun c => !isPySpace c) = true) :
    (l.dropWhile isPySpace).any (fun c => !isPySpace c) = true := by
  induction l with
  | nil => simp at h
  | cons x xs ih =>
    rw [List.dropWhile_cons]
    by_cases hx : isPySpace x = true
    · rw [if_pos hx]
      apply ih
      simp only [List.any_cons, Bool.or_eq_true] at h
      rcases h with h | h
      · rw [hx] at h; simp at h
      · exact h
    · rw [if_neg hx]
      simp only [List.any_cons, Bool.or_eq_true]
      left
      simp only [Bool.not_eq_true] at hx
      rw [hx]
      rfl

theorem pyStripList_ne_nil {l : List Char}
    (h : l.any (fun c => !isPySpace c) = true) : pyStripList l ≠ [] := by
  intro hc
  unfold pyStripList at hc
  rw [List.reverse_eq_nil_iff] at hc
  have h1 := any_dropWhile_isPySpace l h
  have h2 : ((l.dropWhile isPySpace).reverse).any (fun c => !isPySpace c) = true := by
    rw [List.any_reverse]; exact h1
  have h3 := any_dropWhile_isPySpace _ h2
  rw [hc] at h3
  simp at h3

theorem upperChar_S_not_space {x : Char} (h : pyUpperChar x = 'S') :
    isPySpace x = false := by
  by_cases hs : isPySpace x = true
  · exfalso
    have hx := pyUpperChar_space hs
    rw [hx] at h
    rw [h] at hs
    exact absurd hs (by decide)
  · simpa using hs

/-- A string whose uppercase form is one of the affirmative crop
tokens contains a non-whitespace character, hence strips to a nonempty
string (the redundant truthiness test of the source). -/
theorem strip_ne_of_upper_token {s : String}
    (h : pyUpper s = "SÍ" ∨ pyUpper s = "SI" ∨ pyUpper s = "S") : pyStrip s ≠ "" := by
  have hfirst : (s.data.head?).map pyUpperChar = some 'S' := by
    have hh : (pyUpper s).data.head? = some 'S' := by
      rcases h with h | h | h <;> rw [h] <;> decide
    rw [← List.head?_map]
    exact hh
  cases hx : s.data with
  | nil => rw [hx] at hfirst; simp at hfirst
  | cons x xs =>
    rw [hx] at hfirst
    simp only [List.head?_cons, Option.map_some'] at hfirst
    have hS : pyUpperChar x = 'S' := by injection hfirst
    intro hc
    have hnil : pyStripList s.data = [] := congrArg String.data hc
    apply pyStripList_ne_nil ?_ hnil
    rw [hx]
    simp only [List.any_cons, Bool.or_eq_true]
    left
    rw [upperChar_S_not_space hS]
    rfl

/-- C6: a crop cell is active exactly when it is a string equal,
case-insensitively, to one of the affirmative tokens sí/si/s, or a
number strictly greater than zero; and the record with
esparrago = "SÍ", maiz = "NO", papa = 2.5 has exactly esparrago and
papa active. -/
theorem c6_active_crops :
    (∀ v : Option PyVal, Agricultor.es_cultivo_activo v = true ↔
      ((∃ s : String, v = some (.str s) ∧
          (pyUpper s = pyUpper "sí" ∨ pyUpper s = pyUpper "si" ∨ pyUpper s = pyUpper "s")) ∨
        (∃ q : ℚ, v = some (.num q) ∧ 0 < q))) ∧
    (Agricultor.cultivos_activos agricultor_c6).map Prod.fst = ["esparrago", "papa"] := by
  have e1 : pyUpper "sí" = "SÍ" := by decide
  have e2 : pyUpper "si" = "SI" := by decide
  have e3 : pyUpper "s" = "S" := by decide
  constructor
  · intro v
    cases v with
    | none => simp [Agricultor.es_cultivo_activo]
    | some pv =>
      cases pv with
      | str s =>
        simp only [Agricultor.es_cultivo_activo, Bool.and_eq_true, Bool.or_eq_true,
          decide_eq_true_eq, e1, e2, e3]
        constructor
        · rintro ⟨hne, htok⟩
          exact Or.inl ⟨s, rfl, by tauto⟩
        · rintro (⟨s2, hs2, htok⟩ | ⟨q, hq, hq0⟩)
          · have hss : s = s2 := by injection (Option.some.inj hs2)
            subst hss
            refine ⟨?_, by tauto⟩
            have := strip_ne_of_upper_token htok
            simpa using this
          · cases hq
      | num q =>
        simp only [Agricultor.es_cultivo_activo, decide_eq_true_eq]
        constructor
        · intro h
          exact Or.inr ⟨q, rfl, h⟩
        · rintro (⟨s2, hs2, _⟩ | ⟨q2, hq2, hq0⟩)
          · cases hs2
          · have hqq : q = q2 := by injection (Option.some.inj hq2)
            subst hqq
            exact hq0
  · have h1 : Agricultor.es_cultivo_activo (some (.str "SÍ")) = true := by decide
    have h2 : Agricultor.es_cultivo_activo (some (.str "NO")) = false := by decide
    have h3 : Agricultor.es_cultivo_activo (some (.num q_dos_y_medio)) = true := by decide
    simp [Agricultor.cultivos_activos, agricultor_c6, agricultor_base, h1, h2, h3,
      List.filterMap_cons]

theorem option_any_neg_false (o : Option ℚ) :
    (o.any fun q => decide (q < 0)) = false ↔ ∀ q : ℚ, o = some q → 0 ≤ q := by
  cases o with
  | none => simp [Option.any]
  | some x => simp [Option.any, not_lt]

theorem option_any_neg_true (o : Option ℚ) :
    (o.any fun q => decide (q < 0)) = true ↔ ∃ q : ℚ, o = some q ∧ q < 0 := by
  cases o with
  | none => simp [Option.any]
  | some x => simp [Option.any]

/-- C7: the record validator checks exactly the four rules (full
name non-blank, department non-blank, planted hectares ≥ 0 when
present, productivity ≥ 0 when present) and reports the first
violated rule, in that order, with the field name, the offending
value and a message. -/
theorem c7_validator_rules (a : Agricultor) :
    (validar_datos_agricultor a = none ↔
      (pyStrip a.nombre_completo ≠ "" ∧ pyStrip a.dpto ≠ "" ∧
        (∀ q : ℚ, a.total_ha_sembrada = some q → 0 ≤ q) ∧
        (∀ q : ℚ, a.productividad_x_ha = some q → 0 ≤ q))) ∧
    (pyStrip a.nombre_completo = "" →
      validar_datos_agricultor a =
        some (.validation "nombre_completo" (some (.str a.nombre_completo))
          "Nombre completo es obligatorio")) ∧
    (pyStrip a.nombre_completo ≠ "" → pyStrip a.dpto = "" →
      validar_datos_agricultor a =
        some (.validation "dpto" (some (.str a.dpto)) "Departamento es obligatorio")) ∧
    (∀ q : ℚ, pyStrip a.nombre_completo ≠ "" → pyStrip a.dpto ≠ "" →
      a.total_ha_sembrada = some q → q < 0 →
      validar_datos_agricultor a =
        some (.validation "total_ha_sembrada" (some (.num q))
          "Hectáreas sembradas no puede ser negativo")) ∧
    (∀ q : ℚ, pyStrip a.nombre_completo ≠ "" → pyStrip a.dpto ≠ "" →
      (∀ r : ℚ, a.total_ha_sembrada = some r → 0 ≤ r) →
      a.productividad_x_ha = some q → q < 0 →
      validar_datos_agricultor a =
        some (.validation "productividad_x_ha" (some (.num q))
          "Productividad no puede ser negativa")) := by
  refine ⟨?_, ?_, ?_, ?_, ?_⟩
  · unfold validar_datos_agricultor
    split_ifs with h1 h2 h3 h4
    · refine iff_of_false (by simp) ?_
      rintro ⟨hn, _⟩
      exact hn ((blank_iff _).mp h1)
    · refine iff_of_false (by simp) ?_
      rintro ⟨_, hd, _⟩
      exact hd ((blank_iff _).mp h2)
    · refine iff_of_false (by simp) ?_
      rintro ⟨_, _, hha, _⟩
      obtain ⟨q, hq, hlt⟩ := (option_any_neg_true _).mp h3
      exact absurd (hha q hq) (not_le.mpr hlt)
    · refine iff_of_false (by simp) ?_
      rintro ⟨_, _, _, hpr⟩
      obtain ⟨q, hq, hlt⟩ := (option_any_neg_true _).mp h4
      exact absurd (hpr q hq) (not_le.mpr hlt)
    · refine iff_of_true rfl
        ⟨fun hc => h1 (Or.inr hc), fun hc => h2 (Or.inr hc),
          (option_any_neg_false _).mp (by simpa using h3),
          (option_any_neg_false _).mp (by simpa using h4)⟩
  · intro hb
    unfold validar_datos_agricultor
    rw [if_pos (Or.inr hb)]
  · intro hn hd
    unfold validar_datos_agricultor
    rw [if_neg (fun hc => hn ((blank_iff _).mp hc)), if_pos (Or.inr hd)]
  · intro q hn hd hq hlt
    unfold validar_datos_agricultor
    rw [if_neg (fun hc => hn ((blank_iff _).mp hc)),
      if_neg (fun hc => hd ((blank_iff _).mp hc)), hq,
      if_pos (by simpa using hlt : ((some q).any fun r => decide (r < 0)) = true)]
    rfl
  · intro q hn hd hha hq hlt
    unfold validar_datos_agricultor
    rw [if_neg (fun hc => hn ((blank_iff _).mp hc)),
      if_neg (fun hc => hd ((blank_iff _).mp hc))]
    rw [if_neg (fun hc => by
      obtain ⟨r, hr, hrlt⟩ := (option_any_neg_true _).mp hc
      exact absurd (hha r hr) (not_le.mpr hrlt))]
    rw [hq, if_pos (by simpa using hlt : ((some q).any fun r => decide (r < 0)) = true)]
    rfl

/-- Witness for C7 on a record with a blank full name. -/
theorem c7_witness :
    validar_datos_agricultor agricultor_dup_invalido =
      some (.validation "nombre_completo" (some (.str "")) "Nombre completo es obligatorio") :=
  (c7_validator_rules agricultor_dup_invalido).2.1 (by decide)

/-- C10: the existence check never propagates an invalid-identifier
error: it answers `false` when normalization fails and answers
exactly the repository's reply on the normalized identifier when it
succeeds. -/
theorem c10_existence_check :
    (∀ (repo : Repo) (s : String) (e : DomainError),
      validar_y_limpiar_dni s = .error e →
      verificar_existencia_agricultor repo s = .ok false) ∧
    (∀ (repo : Repo) (s d : String),
      validar_y_limpiar_dni s = .ok d →
      verificar_existencia_agricultor repo s = .ok (exists_by_dni repo d)) := by
  constructor
  · intro repo s e h
    unfold verificar_existencia_agricultor
    rw [h]
    cases e with
    | invalidDNI d r => rfl
    | notFound d =>
      exfalso
      simp only [validar_y_limpiar_dni] at h
      split_ifs at h <;> cases h
    | validation f v r =>
      exfalso
      simp only [validar_y_limpiar_dni] at h
      split_ifs at h <;> cases h
  · intro repo s d h
    unfold verificar_existencia_agricultor
    rw [h]

/-- Witness for C10 on a malformed and a well-formed input. -/
theorem c10_witness :
    verificar_existencia_agricultor [] "12X" = .ok false ∧
    verificar_existencia_agricultor [] "12345678" = .ok (exists_by_dni [] "12345678") :=
  ⟨c10_existence_check.1 [] "12X"
      (.invalidDNI "12X" "DNI debe tener 8 dígitos, recibido: 3") (by decide),
    c10_existence_check.2 [] "12345678" "12345678" (by decide)⟩

/-- C3 (amended): create with a duplicate identifier on a record
that passes field validation leaves the repository unchanged and
signals the duplicate through `AgricultorValidationException` on the
field `dni` — the same error kind as a field validation failure, not
a distinct one; field validation runs before the duplicate check. -/
theorem c3_duplicate_create (repo : Repo) (a : Agricultor)
    (hval : validar_datos_agricultor a = none)
    (hex : exists_by_dni repo a.dni = true) :
    crear_execute repo a =
      (.error (.validation "dni" (some (.str a.dni)) "Ya existe un agricultor con este DNI"),
        repo) := by
  unfold crear_execute
  rw [hval, hex]
  rfl

/-- Counterexample to C3 as stated: a create request whose
identifier is already stored but whose full name is blank signals the
field validation failure on `nombre_completo`, not a duplicate
error. -/
theorem c3_counterexample :
    exists_by_dni [agricultor_base] agricultor_dup_invalido.dni = true ∧
    crear_execute [agricultor_base] agricultor_dup_invalido =
      (.error (.validation "nombre_completo" (some (.str "")) "Nombre completo es obligatorio"),
        [agricultor_base]) := by decide

/-- Witness for C3 on a duplicate of a stored valid record. -/
theorem c3_witness :
    crear_execute [agricultor_base] agricultor_base =
      (.error (.validation "dni" (some (.str "12345678")) "Ya existe un agricultor con este DNI"),
        [agricultor_base]) :=
  c3_duplicate_create [agricultor_base] agricultor_base (by decide) (by decide)

/-- C5 (amended): the MySQL adapter round-trips all 54 entity
fields; the PostgreSQL adapter stores and reads back only its 33
columns, so the other 21 fields come back as their dataclass
defaults. -/
theorem c5_roundtrip (mtbl : List MyRow) (ptbl : List PgRow) (r : Agricultor)
    (h1 : my_find_by_dni mtbl r.dni = none) (h2 : pg_find_by_dni ptbl r.dni = none) :
    my_find_by_dni (my_create mtbl r) r.dni = some r ∧
    pg_find_by_dni (pg_save ptbl r) r.dni =
      some { r with
             nombre_empresa_organizacion := none, pais := none, telefono := none,
             tamano_empresa := none, sector := none, castana := none, coordenadas := none,
             ubicacion_maps := none, cod_lugar_prod := none, area_solicitada := none,
             rendimiento_certificado := none, predio := none, direccion := none,
             departamento_senasa := none, provincia_senasa := none, distrito_senasa := none,
             sector_senasa := none, subsector_senasa := none, programa_plantas := none,
             inia_programa_peru_2m := none, senasa_escuela_campo := none } := by
  constructor
  · unfold my_find_by_dni my_create
    unfold my_find_by_dni at h1
    have hnone : List.find? (fun row : MyRow => row.dni = r.dni) mtbl = none := by
      cases hf : List.find? (fun row : MyRow => row.dni = r.dni) mtbl with
      | none => rfl
      | some row => rw [hf] at h1; cases h1
    simp only [List.append_eq]
    rw [List.find?_append, hnone]
    simp only [Option.none_or]
    have : List.find? (fun row : MyRow => row.dni = r.dni) [my_row_of r] =
        some (my_row_of r) := by
      simp [List.find?, my_row_of]
    rw [this]
    rfl
  · unfold pg_find_by_dni pg_save
    unfold pg_find_by_dni at h2
    have hnone : List.find? (fun row : PgRow => row.dni = r.dni) ptbl = none := by
      cases hf : List.find? (fun row : PgRow => row.dni = r.dni) ptbl with
      | none => rfl
      | some row => rw [hf] at h2; cases h2
    simp only [List.append_eq]
    rw [List.find?_append, hnone]
    simp only [Option.none_or]
    have : List.find? (fun row : PgRow => row.dni = r.dni) [pg_row_of r] =
        some (pg_row_of r) := by
      simp [List.find?, pg_row_of]
    rw [this]
    rfl

/-- Counterexample to C5 as stated: a record with `pais = "Perú"`
saved and re-read through the PostgreSQL adapter loses that field. -/
theorem c5_counterexample :
    agricultor_pais.pais = some "Perú" ∧
    pg_find_by_dni (pg_save [] agricultor_pais) agricultor_pais.dni ≠ some agricultor_pais ∧
    (pg_find_by_dni (pg_save [] agricultor_pais) agricultor_pais.dni).map Agricultor.pais =
      some none := by decide

/-- Witness for C5 on empty tables. -/
theorem c5_witness :
    my_find_by_dni (my_create [] agricultor_pais) agricultor_pais.dni = some agricultor_pais ∧
    pg_find_by_dni (pg_save [] agricultor_pais) agricultor_pais.dni =
      some { agricultor_pais with
             nombre_empresa_organizacion := none, pais := none, telefono := none,
             tamano_empresa := none, sector := none, castana := none, coordenadas := none,
             ubicacion_maps := none, cod_lugar_prod := none, area_solicitada := none,
             rendimiento_certificado := none, predio := none, direccion := none,
             departamento_senasa := none, provincia_senasa := none, distrito_senasa := none,
             sector_senasa := none, subsector_senasa := none, programa_plantas := none,
             inia_programa_peru_2m := none, senasa_escuela_campo := none } :=
  c5_roundtrip [] [] agricultor_pais (by decide) (by decide)

theorem find_update (repo : Repo) (a w : Agricultor)
    (hfind : find_by_dni repo a.dni = some w) :
    find_by_dni (repo.map fun x => if x.dni = a.dni then a else x) a.dni = some a := by
  induction repo with
  | nil => cases hfind
  | cons x xs ih =>
    unfold find_by_dni at hfind ⊢
    rw [List.map_cons]
    by_cases hx : x.dni = a.dni
    · rw [if_pos hx]
      rw [List.find?_cons_of_pos _ (by simp)]
    · rw [if_neg hx]
      rw [List.find?_cons_of_neg _ (by simpa using hx)] at hfind
      rw [List.find?_cons_of_neg _ (by simpa using hx)]
      exact ih hfind

/-- C1: whenever the update use case succeeds, the returned record
carries exactly the normalized path identifier — whatever identifier
the payload carried — and the repository state after the call stores
that record under that identifier. -/
theorem c1_update_identifier (repo : Repo) (dni : String) (payload : Agricultor)
    (r : Agricultor) (repo2 : Repo)
    (h : actualizar_execute repo dni payload = (.ok r, repo2)) :
    validar_y_limpiar_dni dni = .ok r.dni ∧ find_by_dni repo2 r.dni = some r := by
  unfold actualizar_execute at h
  split at h
  next e heq => simp at h
  next dni8 heq =>
    split at h
    next hf => simp at h
    next w hf =>
      generalize hA : (if payload.dni ≠ dni8 then { payload with dni := dni8 } else payload) = A
        at h
      have hdni : A.dni = dni8 := by
        rw [← hA]
        by_cases hp : payload.dni ≠ dni8
        · rw [if_pos hp]
        · rw [if_neg hp]
          exact not_not.mp hp
      dsimp only at h
      split at h
      next e2 hvald => simp at h
      next hvald =>
        split at h
        next u hupd =>
          simp only [Prod.mk.injEq, Except.ok.injEq] at h
          obtain ⟨h1, h2⟩ := h
          have hex : exists_by_dni repo A.dni = true := by
            unfold exists_by_dni
            rw [hdni, hf]
            rfl
          unfold repo_update at hupd
          rw [hex] at hupd
          simp only [if_pos, Except.ok.injEq] at hupd
          rw [← hupd] at h1 h2
          simp only at h1 h2
          subst h1
          subst h2
          refine ⟨by rw [hdni]; exact heq, ?_⟩
          exact find_update repo A w (by rw [hdni]; exact hf)
        next err herr => simp at h

/-- Witness for C1 at the specification's example: stored
identifier 12345678, payload identifier 99999999. -/
theorem c1_witness :
    validar_y_limpiar_dni "12345678" = .ok payload_forzado.dni ∧
    find_by_dni [payload_forzado] payload_forzado.dni = some payload_forzado :=
  c1_update_identifier [agricultor_base] "12345678" payload_99 payload_forzado
    [payload_forzado] (by decide)

/-- C8 (amended): the PostgreSQL listing is ordered by surname then
given name; the MySQL listing is ordered by census date descending,
which is not a surname-based order. -/
theorem c8_find_all_order :
    (∀ (tbl : List PgRow) (limit offset : Nat),
      List.Pairwise (fun x y : Agricultor =>
        (if x.apellidos.data = y.apellidos.data then charLeB x.nombres.data y.nombres.data
          else charLeB x.apellidos.data y.apellidos.data) = true)
        (pg_find_all tbl limit offset)) ∧
    (∀ (tbl : List MyRow) (limit offset : Nat),
      List.Pairwise (fun x y : Agricultor => dateLeB y.fecha_censo x.fecha_censo = true)
        (my_find_all tbl limit offset)) := by
  constructor
  · intro tbl limit offset
    unfold pg_find_all
    apply List.Pairwise.map (R := pgOrder)
    · intro a b hab
      exact hab
    · apply List.Pairwise.sublist
        ((List.take_sublist _ _).trans (List.drop_sublist _ _))
      exact List.sorted_insertionSort pgOrder tbl
  · intro tbl limit offset
    unfold my_find_all
    apply List.Pairwise.map (R := myOrder)
    · intro a b hab
      exact hab
    · apply List.Pairwise.sublist
        ((List.take_sublist _ _).trans (List.drop_sublist _ _))
      exact List.sorted_insertionSort myOrder tbl

/-- Counterexample to C8 as stated: the MySQL listing returns the
2021-census record before the 2020-census one even though its surname
sorts after, so the listing is not keyed by surname. -/
theorem c8_counterexample :
    (my_find_all [my_row_of agricultor_alvarez, my_row_of agricultor_bravo] 10 0).map
      Agricultor.apellidos = ["Bravo", "Alvarez"] ∧
    charLeB "Bravo".data "Alvarez".data = false := by decide
